import Mathlib

/-!
Shallow embedding of the versioned local-history persistence and migration
component of vscode/src/services/LocalStorageProvider.ts.

JavaScript objects are modelled as association lists (String keys paired with
values), which preserve insertion order exactly as Object.entries /
Object.fromEntries do.  Optional or possibly-absent fields are Option.
The asynchronous storage calls are modelled sequentially: every issued write
is applied before the function returns, matching the single-threaded
cooperative model of the host.  Fallible storage and the initialization check
are modelled with Except in a second layer on top of the pure core.
-/

/-- One serialized chat message.  Only the fields relevant to the history
store and the chatModel migration are carried; the object spread in the
source preserves all fields, which the structure-update syntax models. -/
structure SerializedChatMessage where
  speaker : String
  text : Option String
  model : Option String
deriving DecidableEq, Repr

/-- One human/assistant interaction.  The assistant message may be null. -/
structure SerializedChatInteraction where
  humanMessage : SerializedChatMessage
  assistantMessage : Option SerializedChatMessage
deriving DecidableEq, Repr

/-- One chat transcript: metadata plus the interaction list.  chatModel is
the legacy transcript-level model identifier that the migration pushes down
onto the assistant messages. -/
structure SerializedChatTranscript where
  id : String
  chatTitle : Option String
  chatModel : Option String
  interactions : List SerializedChatInteraction
deriving DecidableEq, Repr

/-- A ChatHistory object: chat identifier mapped to a transcript.  A stored
entry can be null at runtime (the migration guards for it), hence Option. -/
abbrev ChatHistory := List (String × Option SerializedChatTranscript)

/-- A per-account history record.  The declared TS type requires the chat
field, but persisted data may lack it (the migration guards with a
truthiness test), hence Option. -/
structure PersistedUserLocalHistory where
  chat : Option ChatHistory
deriving DecidableEq, Repr

/-- The full persisted record under the versioned storage key: account key
mapped to that account's history. -/
abbrev AccountKeyedChatHistory := List (String × PersistedUserLocalHistory)

/-- The authenticated identity, reduced to the two fields the account key is
derived from. -/
structure AuthStatus where
  endpoint : String
  username : String
deriving DecidableEq, Repr

/-- Account key derivation: the template literal endpoint-username. -/
def getKeyForAuthStatus (a : AuthStatus) : String :=
  a.endpoint ++ "-" ++ a.username

/-- Association-list lookup, modelling bracket access obj[key] on a
JavaScript object (first matching key wins; real objects have unique keys). -/
def lookupKey {α : Type} : List (String × α) → String → Option α
  | [], _ => none
  | (k1, v) :: rest, k => if k1 = k then some v else lookupKey rest k

/-- Lookup through an optional store, modelling obj?.[key]. -/
def lookupOpt {α : Type} (l : Option (List (String × α))) (k : String) : Option α :=
  match l with
  | none => none
  | some l => lookupKey l k

/-- Assignment obj[key] = v on a JavaScript object: if the key exists its
value is replaced in place (position kept), otherwise the pair is appended. -/
def setKey {α : Type} (l : List (String × α)) (k : String) (v : α) : List (String × α) :=
  if l.any (fun p => p.1 == k) then
    l.map (fun p => if p.1 = k then (k, v) else p)
  else
    l ++ [(k, v)]

/-- The delete operator on a JavaScript object key: the entry is removed,
the others keep their order. -/
def removeKey {α : Type} (l : List (String × α)) (k : String) : List (String × α) :=
  l.filter (fun p => p.1 != k)

/-- JavaScript truthiness of an optional string: absent, null and the empty
string are falsy. -/
def truthyModel : Option String → Bool
  | none => false
  | some s => s != ""

/-- The migrateAssistantMessage closure from migrateHistoryForChatModelProperty:
a message whose model field is truthy is returned unchanged; otherwise the
spread copy gets model set to the given model if non-nullish, else the
literal "unknown".  The second component is the contribution to the
neededMigration counter (0 or 1). -/
def migrateAssistantMessage (m : SerializedChatMessage) (model : Option String) :
    SerializedChatMessage × Nat :=
  if truthyModel m.model then (m, 0)
  else ({ m with model := some (model.getD "unknown") }, 1)

/-- Migration of one interaction: a null assistant message is passed through
as null; a present one goes through migrateAssistantMessage with the
transcript chatModel. -/
def migrateInteraction (chatModel : Option String) (i : SerializedChatInteraction) :
    SerializedChatInteraction × Nat :=
  match i.assistantMessage with
  | none => ({ i with assistantMessage := none }, 0)
  | some m =>
    ({ i with assistantMessage := some (migrateAssistantMessage m chatModel).1 },
     (migrateAssistantMessage m chatModel).2)

/-- Migration of one (non-null) transcript: every interaction is mapped,
the counter contributions are summed. -/
def migrateTranscript1 (t : SerializedChatTranscript) : SerializedChatTranscript × Nat :=
  ({ t with interactions := t.interactions.map (fun i => (migrateInteraction t.chatModel i).1) },
   (t.interactions.map (fun i => (migrateInteraction t.chatModel i).2)).sum)

/-- Migration of a possibly-null transcript entry: null passes through. -/
def migrateTranscriptOpt : Option SerializedChatTranscript →
    Option SerializedChatTranscript × Nat
  | none => (none, 0)
  | some t => ((some (migrateTranscript1 t).1), (migrateTranscript1 t).2)

/-- Migration of a chat map: every transcript entry is mapped under its
chat identifier. -/
def migrateChat (c : ChatHistory) : ChatHistory × Nat :=
  (c.map (fun p => (p.1, (migrateTranscriptOpt p.2).1)),
   (c.map (fun p => (migrateTranscriptOpt p.2).2)).sum)

/-- Migration of one account's history record: a missing chat field is
treated as empty, so the rebuilt record always carries a chat map. -/
def migrateUserLocalHistory (u : PersistedUserLocalHistory) :
    PersistedUserLocalHistory × Nat :=
  match u.chat with
  | none => ({ chat := some [] }, 0)
  | some c => ({ chat := some (migrateChat c).1 }, (migrateChat c).2)

/-- Migration of the full persisted record: every account partition is
rebuilt; the counter totals the migrated messages. -/
def migrateStore (h : AccountKeyedChatHistory) : AccountKeyedChatHistory × Nat :=
  (h.map (fun p => (p.1, (migrateUserLocalHistory p.2).1)),
   (h.map (fun p => (migrateUserLocalHistory p.2).2)).sum)

/-- The neededMigration counter observed by migrateHistoryForChatModelProperty
on a possibly-null store. -/
def migrationCount : Option AccountKeyedChatHistory → Nat
  | none => 0
  | some h => (migrateStore h).2

/-- migrateHistoryForChatModelProperty: null maps to null; otherwise the
store is rebuilt, and the rebuilt value is returned only when the counter is
non-zero — when nothing needed migration the original input itself is
returned (in the source this is reference identity). -/
def migrateHistoryForChatModelProperty :
    Option AccountKeyedChatHistory → Option AccountKeyedChatHistory
  | none => none
  | some h => if (migrateStore h).2 ≠ 0 then some (migrateStore h).1 else some h

/-- getChatHistory, pure core over the value stored under the versioned
history key.  Returns the history handed to the caller, the store content
after the fire-and-forget write-back, and whether that write was issued.
The source decides the write by reference comparison history !==
migratedHistory; in this embedding the migration returns the input itself
exactly when the counter is zero and a freshly built structure otherwise, so
the comparison is modelled by the counter being non-zero. -/
def getChatHistoryPure (oh : Option AccountKeyedChatHistory) (a : AuthStatus) :
    PersistedUserLocalHistory × Option AccountKeyedChatHistory × Bool :=
  let migrated := migrateHistoryForChatModelProperty oh
  let didWrite : Bool := migrationCount oh ≠ 0
  let newStore := if didWrite then migrated else oh
  ((lookupOpt migrated (getKeyForAuthStatus a)).getD { chat := some [] }, newStore, didWrite)

/-- setChatHistory, pure core: read the full record (null when absent), set
the account key entry, write the whole record back. -/
def setChatHistoryPure (oh : Option AccountKeyedChatHistory) (a : AuthStatus)
    (history : PersistedUserLocalHistory) : Option AccountKeyedChatHistory :=
  match oh with
  | some full => some (setKey full (getKeyForAuthStatus a) history)
  | none => some [(getKeyForAuthStatus a, history)]

/-- deleteChatHistory, pure core: read the account history through
getChatHistory (which may migrate and write back the whole store), delete
the chat identifier, write back through setChatHistory.  When the returned
record lacks the chat field the delete on a missing object throws; the
surrounding try/catch swallows it and no write-back happens. -/
def deleteChatHistoryPure (oh : Option AccountKeyedChatHistory) (a : AuthStatus)
    (chatID : String) : Option AccountKeyedChatHistory :=
  let r := getChatHistoryPure oh a
  match r.1.chat with
  | none => r.2.1
  | some entries => setChatHistoryPure r.2.1 a { chat := some (removeKey entries chatID) }

/-- removeChatHistory, pure core: store the empty history for the account. -/
def removeChatHistoryPure (oh : Option AccountKeyedChatHistory) (a : AuthStatus) :
    Option AccountKeyedChatHistory :=
  setChatHistoryPure oh a { chat := some [] }

/-- Errors of the storage layer. -/
inductive LSError where
  | notInitialized
  | backendFailure
deriving DecidableEq, Repr

/-- A storage backend (Memento or AsyncMemento), reduced to the content of
the versioned history key plus flags saying whether its get or update call
throws.  In this sequential embedding the synchronous and the asynchronous
backend behave identically. -/
structure MementoModel where
  history : Option AccountKeyedChatHistory
  readFails : Bool
  writeFails : Bool
deriving DecidableEq, Repr

/-- convertToAsyncStore wraps each backend call in an immediately resolved
promise; in the sequential embedding that wrapper is the identity, and it
has no effect on an already asynchronous store. -/
def convertToAsyncStore (m : MementoModel) : MementoModel :=
  m

/-- The LocalStorage singleton state: the configured backend, or none before
setStorage has run. -/
structure LocalStorageState where
  backing : Option MementoModel
deriving DecidableEq, Repr

/-- setStorage: unconditionally replaces the configured backend with the
async-converted given one; never fails. -/
def setStorage (s : LocalStorageState) (m : MementoModel) : LocalStorageState :=
  let _ := s
  { backing := some (convertToAsyncStore m) }

/-- The private storage getter: throws NotInitialized when no backend has
been configured. -/
def storageGet (s : LocalStorageState) : Except LSError MementoModel :=
  match s.backing with
  | none => .error .notInitialized
  | some m => .ok m

/-- A storage.get of the history key: throws when the backend read fails,
otherwise yields the stored value (null default when absent). -/
def readHistory (m : MementoModel) : Except LSError (Option AccountKeyedChatHistory) :=
  if m.readFails then .error .backendFailure else .ok m.history

/-- A storage.update of the history key: throws when the backend write
fails, otherwise yields the backend holding the new value. -/
def writeHistory (m : MementoModel) (v : Option AccountKeyedChatHistory) :
    Except LSError MementoModel :=
  if m.writeFails then .error .backendFailure else .ok { m with history := v }

/-- getChatHistory with the failure and initialization behavior of the
source: the storage getter and the awaited read are not wrapped in any
try/catch, so their errors propagate to the caller; the fire-and-forget
write-back attaches console.error as rejection handler, so a write failure
is logged and swallowed. -/
def getChatHistoryE (s : LocalStorageState) (a : AuthStatus) :
    Except LSError (PersistedUserLocalHistory × LocalStorageState) :=
  match storageGet s with
  | .error e => .error e
  | .ok m =>
    match readHistory m with
    | .error e => .error e
    | .ok oh =>
      let r := getChatHistoryPure oh a
      let m2 := if r.2.2 then
          match writeHistory m r.2.1 with
          | .error _ => m
          | .ok m3 => m3
        else m
      .ok (r.1, { backing := some m2 })

/-- setChatHistory with the failure behavior of the source: the whole body
sits inside try/catch, so every error — NotInitialized from the storage
getter included — is logged and swallowed, and the call returns normally. -/
def setChatHistoryE (s : LocalStorageState) (a : AuthStatus)
    (history : PersistedUserLocalHistory) : Except LSError (Unit × LocalStorageState) :=
  match storageGet s with
  | .error _ => .ok ((), s)
  | .ok m =>
    match readHistory m with
    | .error _ => .ok ((), s)
    | .ok oh =>
      match writeHistory m (setChatHistoryPure oh a history) with
      | .error _ => .ok ((), s)
      | .ok m2 => .ok ((), { backing := some m2 })

/-- deleteChatHistory with the failure behavior of the source: the
getChatHistory call sits outside the try, so its errors propagate; the
delete and the setChatHistory call sit inside a try whose catch logs and
swallows. -/
def deleteChatHistoryE (s : LocalStorageState) (a : AuthStatus) (chatID : String) :
    Except LSError (Unit × LocalStorageState) :=
  match getChatHistoryE s a with
  | .error e => .error e
  | .ok (userHistory, s1) =>
    match userHistory.chat with
    | none => .ok ((), s1)
    | some entries => setChatHistoryE s1 a { chat := some (removeKey entries chatID) }

/-- removeChatHistory: delegates to setChatHistory with the empty history;
its own try/catch never fires because setChatHistory already swallows. -/
def removeChatHistoryE (s : LocalStorageState) (a : AuthStatus) :
    Except LSError (Unit × LocalStorageState) :=
  setChatHistoryE s a { chat := some [] }

/-! ## Helper lemmas -/

theorem mam_of_truthy (m : SerializedChatMessage) (cm : Option String)
    (h : truthyModel m.model = true) : migrateAssistantMessage m cm = (m, 0) := by
  simp [migrateAssistantMessage, h]

theorem mam_of_falsy (m : SerializedChatMessage) (cm : Option String)
    (h : truthyModel m.model = false) :
    migrateAssistantMessage m cm = ({ m with model := some (cm.getD "unknown") }, 1) := by
  simp [migrateAssistantMessage, h]

theorem mam_fst_idem (m : SerializedChatMessage) (cm : Option String) :
    (migrateAssistantMessage (migrateAssistantMessage m cm).1 cm).1
      = (migrateAssistantMessage m cm).1 := by
  by_cases h : truthyModel m.model = true
  · rw [mam_of_truthy m cm h, mam_of_truthy m cm h]
  · rw [mam_of_falsy m cm (Bool.not_eq_true _ ▸ h)]
    by_cases h2 : truthyModel (some (cm.getD "unknown")) = true
    · rw [mam_of_truthy _ cm h2]
    · rw [mam_of_falsy _ cm (Bool.not_eq_true _ ▸ h2)]

theorem mi_fst_idem (cm : Option String) (i : SerializedChatInteraction) :
    (migrateInteraction cm (migrateInteraction cm i).1).1 = (migrateInteraction cm i).1 := by
  cases h : i.assistantMessage with
  | none => simp [migrateInteraction, h]
  | some m => simp [migrateInteraction, h, mam_fst_idem]

theorem mt_fst_idem (t : SerializedChatTranscript) :
    (migrateTranscript1 (migrateTranscript1 t).1).1 = (migrateTranscript1 t).1 := by
  show SerializedChatTranscript.mk _ _ _ _ = SerializedChatTranscript.mk _ _ _ _
  simp only [migrateTranscript1, List.map_map]
  congr 1
  exact List.map_congr_left (fun i _ => mi_fst_idem t.chatModel i)

theorem mto_fst_idem (ot : Option SerializedChatTranscript) :
    (migrateTranscriptOpt (migrateTranscriptOpt ot).1).1 = (migrateTranscriptOpt ot).1 := by
  cases ot with
  | none => rfl
  | some t => simp [migrateTranscriptOpt, mt_fst_idem]

theorem mc_fst_idem (c : ChatHistory) :
    (migrateChat (migrateChat c).1).1 = (migrateChat c).1 := by
  simp only [migrateChat, List.map_map]
  exact List.map_congr_left (fun p _ => by simp [mto_fst_idem])

theorem mu_fst_idem (u : PersistedUserLocalHistory) :
    (migrateUserLocalHistory (migrateUserLocalHistory u).1).1 = (migrateUserLocalHistory u).1 := by
  cases h : u.chat with
  | none => simp [migrateUserLocalHistory, h, migrateChat]
  | some c => simp [migrateUserLocalHistory, h, mc_fst_idem]

theorem ms_fst_idem (h : AccountKeyedChatHistory) :
    (migrateStore (migrateStore h).1).1 = (migrateStore h).1 := by
  simp only [migrateStore, List.map_map]
  exact List.map_congr_left (fun p _ => by simp [mu_fst_idem])

/-! ## Claim C2 -/

/-- C2: the migration is idempotent.  Applied to a store in which no message
needed changing (counter zero) it returns the input itself — the embedding
of the reference-identity guarantee — and applying the migration twice gives
the same result as applying it once. -/
theorem C2_migration_idempotent :
    (∀ h : AccountKeyedChatHistory, migrationCount (some h) = 0 →
        migrateHistoryForChatModelProperty (some h) = some h)
    ∧ (∀ oh : Option AccountKeyedChatHistory,
        migrateHistoryForChatModelProperty (migrateHistoryForChatModelProperty oh)
          = migrateHistoryForChatModelProperty oh) := by
  constructor
  · intro h h0
    simp only [migrationCount] at h0
    simp [migrateHistoryForChatModelProperty, h0]
  · intro oh
    cases oh with
    | none => rfl
    | some h =>
      by_cases hn : (migrateStore h).2 = 0
      · simp [migrateHistoryForChatModelProperty, hn]
      · by_cases hn2 : (migrateStore (migrateStore h).1).2 = 0
        · simp [migrateHistoryForChatModelProperty, hn, hn2]
        · simp [migrateHistoryForChatModelProperty, hn, hn2, ms_fst_idem]

/-- Witness for C2 at a concrete already-migrated store. -/
theorem C2_migration_idempotent_witness :
    migrationCount (some ([] : AccountKeyedChatHistory)) = 0
    ∧ migrateHistoryForChatModelProperty (some ([] : AccountKeyedChatHistory))
        = some ([] : AccountKeyedChatHistory) :=
  ⟨rfl, C2_migration_idempotent.1 [] rfl⟩

/-! ## Counting characterization (spec-side view of the migration counter) -/

/-- Spec-side count: an interaction needs migration exactly when its
assistant message is present and its model field is not truthy. -/
def interactionNeedsMigration (i : SerializedChatInteraction) : Nat :=
  match i.assistantMessage with
  | none => 0
  | some m => if truthyModel m.model then 0 else 1

/-- Spec-side count over a possibly-null transcript. -/
def transcriptOptNeeds : Option SerializedChatTranscript → Nat
  | none => 0
  | some t => (t.interactions.map interactionNeedsMigration).sum

/-- Spec-side count over a chat map. -/
def chatNeeds (c : ChatHistory) : Nat :=
  (c.map (fun p => transcriptOptNeeds p.2)).sum

/-- Spec-side count over one account record. -/
def userNeeds (u : PersistedUserLocalHistory) : Nat :=
  match u.chat with
  | none => 0
  | some c => chatNeeds c

/-- Spec-side count over the full store: the number of interactions whose
assistant message is present and lacks a truthy model field. -/
def storeNeeds (h : AccountKeyedChatHistory) : Nat :=
  (h.map (fun p => userNeeds p.2)).sum

theorem mi_snd (cm : Option String) (i : SerializedChatInteraction) :
    (migrateInteraction cm i).2 = interactionNeedsMigration i := by
  cases h : i.assistantMessage with
  | none => simp [migrateInteraction, interactionNeedsMigration, h]
  | some m =>
    by_cases hm : truthyModel m.model = true
    · simp [migrateInteraction, interactionNeedsMigration, h, mam_of_truthy m cm hm, hm]
    · simp [migrateInteraction, interactionNeedsMigration, h,
        mam_of_falsy m cm (Bool.not_eq_true _ ▸ hm), hm]

theorem mt_snd (t : SerializedChatTranscript) :
    (migrateTranscript1 t).2 = (t.interactions.map interactionNeedsMigration).sum := by
  simp only [migrateTranscript1]
  exact congrArg List.sum (List.map_congr_left (fun i _ => mi_snd t.chatModel i))

theorem mto_snd (ot : Option SerializedChatTranscript) :
    (migrateTranscriptOpt ot).2 = transcriptOptNeeds ot := by
  cases ot with
  | none => rfl
  | some t => simp [migrateTranscriptOpt, transcriptOptNeeds, mt_snd]

theorem mc_snd (c : ChatHistory) : (migrateChat c).2 = chatNeeds c := by
  simp only [migrateChat, chatNeeds]
  exact congrArg List.sum (List.map_congr_left (fun p _ => mto_snd p.2))

theorem mu_snd (u : PersistedUserLocalHistory) :
    (migrateUserLocalHistory u).2 = userNeeds u := by
  cases h : u.chat with
  | none => simp [migrateUserLocalHistory, userNeeds, h]
  | some c => simp [migrateUserLocalHistory, userNeeds, h, mc_snd]

theorem ms_snd (h : AccountKeyedChatHistory) : (migrateStore h).2 = storeNeeds h := by
  simp only [migrateStore, storeNeeds]
  exact congrArg List.sum (List.map_congr_left (fun p _ => mu_snd p.2))

/-! ## Concrete inputs used by witnesses and counterexamples -/

/-- A human message. -/
def exHuman : SerializedChatMessage :=
  { speaker := "human", text := some "q", model := none }

/-- An assistant message with no model field. -/
def exAssistantNoModel : SerializedChatMessage :=
  { speaker := "assistant", text := some "hi", model := none }

/-- The spec example transcript: one interaction, legacy chatModel gpt-4,
assistant message lacking the model field. -/
def exTranscriptGpt4 : SerializedChatTranscript :=
  { id := "c1", chatTitle := none, chatModel := some "gpt-4",
    interactions := [{ humanMessage := exHuman, assistantMessage := some exAssistantNoModel }] }

/-- The spec example store: one account, one chat. -/
def exStoreGpt4 : AccountKeyedChatHistory :=
  [("ep-u1", { chat := some [("c1", some exTranscriptGpt4)] })]

/-- An account identity whose key is e-u. -/
def exAuthEU : AuthStatus := { endpoint := "e", username := "u" }

/-! ## Claim C3 -/

/-- C3: a present assistant message without a truthy model is rewritten to
the transcript chatModel when that is non-nullish and to the literal
"unknown" otherwise, contributing exactly one to the migration counter; an
interaction with a null assistant message passes through unchanged; and the
counter equals the number of interactions whose assistant message is
present without a truthy model, so each changed message is counted exactly
once. -/
theorem C3_migration_rewrites_models :
    (∀ (m : SerializedChatMessage) (cm : Option String), truthyModel m.model = false →
        (migrateAssistantMessage m cm).1.model = some (cm.getD "unknown")
        ∧ (migrateAssistantMessage m cm).2 = 1)
    ∧ (∀ (cm : Option String) (i : SerializedChatInteraction), i.assistantMessage = none →
        migrateInteraction cm i = (i, 0))
    ∧ (∀ h : AccountKeyedChatHistory, migrationCount (some h) = storeNeeds h) := by
  refine ⟨fun m cm hm => ?_, fun cm i hi => ?_, fun h => ms_snd h⟩
  · rw [mam_of_falsy m cm hm]
    exact ⟨rfl, rfl⟩
  · cases i with
    | mk human assistant =>
      cases hi
      rfl

/-- Witness for C3: the spec example migrates the assistant message to
gpt-4, with counter contribution 1, and the example store has total
migration count 1. -/
theorem C3_migration_rewrites_models_witness :
    truthyModel exAssistantNoModel.model = false
    ∧ ((migrateAssistantMessage exAssistantNoModel (some "gpt-4")).1.model
          = some ((some "gpt-4").getD "unknown")
        ∧ (migrateAssistantMessage exAssistantNoModel (some "gpt-4")).2 = 1)
    ∧ migrationCount (some exStoreGpt4) = 1 :=
  ⟨by decide, C3_migration_rewrites_models.1 exAssistantNoModel (some "gpt-4") (by decide),
   by decide⟩

/-! ## Claim C1 -/

/-- Checker: the interaction has no assistant message, or that message has
a model field present. -/
def interactionModelOk (i : SerializedChatInteraction) : Bool :=
  match i.assistantMessage with
  | none => true
  | some m => m.model.isSome

/-- Checker lifted to a possibly-null transcript. -/
def transcriptOptModelOk : Option SerializedChatTranscript → Bool
  | none => true
  | some t => t.interactions.all interactionModelOk

/-- Checker lifted to one account record. -/
def userModelOk (u : PersistedUserLocalHistory) : Bool :=
  match u.chat with
  | none => true
  | some c => c.all (fun p => transcriptOptModelOk p.2)

/-- Checker lifted to the full store: every present assistant message has a
model field present. -/
def storeModelsPresent (h : AccountKeyedChatHistory) : Bool :=
  h.all (fun p => userModelOk p.2)

/-- Checker of the claim as literally stated: every present assistant
message has a truthy (non-empty) model field. -/
def storeModelsNonEmpty (h : AccountKeyedChatHistory) : Bool :=
  h.all (fun p =>
    match p.2.chat with
    | none => true
    | some c => c.all (fun q =>
        match q.2 with
        | none => true
        | some t => t.interactions.all (fun i =>
            match i.assistantMessage with
            | none => true
            | some m => truthyModel m.model)))

theorem mam_model_isSome (m : SerializedChatMessage) (cm : Option String) :
    (migrateAssistantMessage m cm).1.model.isSome = true := by
  by_cases hm : truthyModel m.model = true
  · rw [mam_of_truthy m cm hm]
    cases h : m.model with
    | none => rw [h] at hm; simp [truthyModel] at hm
    | some s => simp [h]
  · rw [mam_of_falsy m cm (Bool.not_eq_true _ ▸ hm)]
    simp

theorem mi_model_ok (cm : Option String) (i : SerializedChatInteraction) :
    interactionModelOk (migrateInteraction cm i).1 = true := by
  cases h : i.assistantMessage with
  | none => simp [migrateInteraction, interactionModelOk, h]
  | some m => simp [migrateInteraction, interactionModelOk, h, mam_model_isSome]

theorem mto_model_ok (ot : Option SerializedChatTranscript) :
    transcriptOptModelOk (migrateTranscriptOpt ot).1 = true := by
  cases ot with
  | none => rfl
  | some t =>
    simp only [migrateTranscriptOpt, transcriptOptModelOk, migrateTranscript1,
      List.all_eq_true, List.mem_map]
    rintro x ⟨i, _, rfl⟩
    exact mi_model_ok t.chatModel i

theorem mu_model_ok (u : PersistedUserLocalHistory) :
    userModelOk (migrateUserLocalHistory u).1 = true := by
  cases h : u.chat with
  | none => simp [migrateUserLocalHistory, userModelOk, h]
  | some c =>
    simp only [migrateUserLocalHistory, h, userModelOk, migrateChat,
      List.all_eq_true, List.mem_map]
    rintro x ⟨p, _, rfl⟩
    exact mto_model_ok p.2

theorem ms_models_present (h : AccountKeyedChatHistory) :
    storeModelsPresent (migrateStore h).1 = true := by
  simp only [storeModelsPresent, migrateStore, List.all_eq_true, List.mem_map]
  rintro x ⟨p, _, rfl⟩
  exact mu_model_ok p.2

theorem nat_sum_zero {l : List Nat} (h : l.sum = 0) : ∀ x ∈ l, x = 0 := by
  induction l with
  | nil => simp
  | cons a t ih =>
    rw [List.sum_cons, Nat.add_eq_zero] at h
    intro x hx
    rcases List.mem_cons.1 hx with rfl | hx
    · exact h.1
    · exact ih h.2 x hx

theorem interaction_ok_of_zero (i : SerializedChatInteraction)
    (h : interactionNeedsMigration i = 0) : interactionModelOk i = true := by
  cases hi : i.assistantMessage with
  | none => simp [interactionModelOk, hi]
  | some m =>
    simp only [interactionNeedsMigration, hi] at h
    by_cases hm : truthyModel m.model = true
    · cases hmm : m.model with
      | none => rw [hmm] at hm; simp [truthyModel] at hm
      | some s => simp [interactionModelOk, hi, hmm]
    · simp [Bool.not_eq_true _ ▸ hm] at h

theorem transcriptOpt_ok_of_zero (ot : Option SerializedChatTranscript)
    (h : transcriptOptNeeds ot = 0) : transcriptOptModelOk ot = true := by
  cases ot with
  | none => rfl
  | some t =>
    simp only [transcriptOptNeeds] at h
    simp only [transcriptOptModelOk, List.all_eq_true]
    intro i hi
    exact interaction_ok_of_zero i
      (nat_sum_zero h _ (List.mem_map.2 ⟨i, hi, rfl⟩))

theorem user_ok_of_zero (u : PersistedUserLocalHistory)
    (h : userNeeds u = 0) : userModelOk u = true := by
  cases hu : u.chat with
  | none => simp [userModelOk, hu]
  | some c =>
    simp only [userNeeds, hu, chatNeeds] at h
    simp only [userModelOk, hu, List.all_eq_true]
    intro p hp
    exact transcriptOpt_ok_of_zero p.2
      (nat_sum_zero h _ (List.mem_map.2 ⟨p, hp, rfl⟩))

theorem store_ok_of_zero (h : AccountKeyedChatHistory)
    (h0 : storeNeeds h = 0) : storeModelsPresent h = true := by
  simp only [storeNeeds] at h0
  simp only [storeModelsPresent, List.all_eq_true]
  intro p hp
  exact user_ok_of_zero p.2 (nat_sum_zero h0 _ (List.mem_map.2 ⟨p, hp, rfl⟩))

/-- C1 (amended): after migration every present assistant message carries a
model field; the field holds the message's original value when that was
truthy, and otherwise the transcript chatModel when non-nullish, else the
literal "unknown".  The field is therefore possibly the empty string, not
necessarily non-empty as claimed. -/
theorem C1_models_present_after_migration :
    (∀ h : AccountKeyedChatHistory,
        storeModelsPresent ((migrateHistoryForChatModelProperty (some h)).getD []) = true)
    ∧ (∀ (m : SerializedChatMessage) (cm : Option String), truthyModel m.model = false →
        (migrateAssistantMessage m cm).1.model = some (cm.getD "unknown")) := by
  constructor
  · intro h
    by_cases hn : (migrateStore h).2 = 0
    · simp only [migrateHistoryForChatModelProperty, hn, ne_eq, not_true_eq_false,
        if_false, Option.getD_some]
      exact store_ok_of_zero h (ms_snd h ▸ hn)
    · simp only [migrateHistoryForChatModelProperty, ne_eq, hn, not_false_eq_true,
        if_true, Option.getD_some]
      exact ms_models_present h
  · intro m cm hm
    rw [mam_of_falsy m cm hm]

/-- Witness for C1 at the spec example and at a message without a model. -/
theorem C1_models_present_after_migration_witness :
    storeModelsPresent ((migrateHistoryForChatModelProperty (some exStoreGpt4)).getD []) = true
    ∧ truthyModel exAssistantNoModel.model = false
    ∧ (migrateAssistantMessage exAssistantNoModel (none : Option String)).1.model
        = some (Option.getD (none : Option String) "unknown") :=
  ⟨C1_models_present_after_migration.1 exStoreGpt4, by decide,
   C1_models_present_after_migration.2 exAssistantNoModel none (by decide)⟩

/-- A transcript whose legacy chatModel is the empty string. -/
def exTranscriptEmptyChatModel : SerializedChatTranscript :=
  { id := "c1", chatTitle := none, chatModel := some "",
    interactions := [{ humanMessage := exHuman, assistantMessage := some exAssistantNoModel }] }

/-- A store containing that transcript. -/
def exStoreEmptyChatModel : AccountKeyedChatHistory :=
  [("e-u", { chat := some [("c1", some exTranscriptEmptyChatModel)] })]

/-- The migrated form of exStoreEmptyChatModel: the assistant message model
became the empty string. -/
def exStoreEmptyChatModelMigrated : AccountKeyedChatHistory :=
  [("e-u",
    { chat := some [("c1",
        some { id := "c1", chatTitle := none, chatModel := some "",
               interactions := [{ humanMessage := exHuman,
                                  assistantMessage := some { speaker := "assistant",
                                                             text := some "hi",
                                                             model := some "" } }] })] })]

/-- Counterexample to C1 as stated: when the legacy chatModel is present but
is the empty string, migration sets the assistant message's model to the
empty string, so the migrated store fails the non-empty check. -/
theorem C1_counterexample_empty_model :
    storeModelsNonEmpty
      ((migrateHistoryForChatModelProperty (some exStoreEmptyChatModel)).getD []) = false
    ∧ migrateHistoryForChatModelProperty (some exStoreEmptyChatModel)
        = some exStoreEmptyChatModelMigrated :=
  ⟨by decide, by decide⟩

/-! ## Association-list lemmas -/

theorem lookupKey_map_snd {α β : Type} (f : α → β) (l : List (String × α)) (k : String) :
    lookupKey (l.map (fun p => (p.1, f p.2))) k = (lookupKey l k).map f := by
  induction l with
  | nil => rfl
  | cons p rest ih =>
    by_cases h : p.1 = k
    · simp [lookupKey, h]
    · simp [lookupKey, h, ih]

theorem any_beq_eq_lookup_isSome {α : Type} (l : List (String × α)) (k : String) :
    l.any (fun p => p.1 == k) = (lookupKey l k).isSome := by
  induction l with
  | nil => rfl
  | cons p rest ih =>
    by_cases h : p.1 = k
    · simp [lookupKey, h]
    · simp [lookupKey, h, ih]


theorem lookupKey_replace_self {α : Type} (l : List (String × α)) (k : String) (v : α)
    (h : (lookupKey l k).isSome = true) :
    lookupKey (l.map (fun p => if p.1 = k then (k, v) else p)) k = some v := by
  induction l with
  | nil => simp [lookupKey] at h
  | cons p rest ih =>
    by_cases hp : p.1 = k
    · rw [List.map_cons, if_pos hp, lookupKey, if_pos rfl]
    · rw [lookupKey, if_neg hp] at h
      rw [List.map_cons, if_neg hp, lookupKey, if_neg hp]
      exact ih h

theorem lookupKey_replace_other {α : Type} (l : List (String × α)) (k k2 : String) (v : α)
    (hne : k ≠ k2) :
    lookupKey (l.map (fun p => if p.1 = k then (k, v) else p)) k2 = lookupKey l k2 := by
  induction l with
  | nil => rfl
  | cons p rest ih =>
    by_cases hp : p.1 = k
    · rw [List.map_cons, if_pos hp, lookupKey, if_neg hne, lookupKey,
        if_neg (fun hk2 => hne (hp ▸ hk2))]
      exact ih
    · rw [List.map_cons, if_neg hp, lookupKey, lookupKey]
      by_cases hk2 : p.1 = k2
      · rw [if_pos hk2, if_pos hk2]
      · rw [if_neg hk2, if_neg hk2]
        exact ih

theorem lookupKey_append_self {α : Type} (l : List (String × α)) (k : String) (v : α)
    (h : lookupKey l k = none) :
    lookupKey (l ++ [(k, v)]) k = some v := by
  induction l with
  | nil => simp [lookupKey]
  | cons p rest ih =>
    by_cases hp : p.1 = k
    · rw [lookupKey, if_pos hp] at h
      exact absurd h (by simp)
    · rw [lookupKey, if_neg hp] at h
      rw [List.cons_append, lookupKey, if_neg hp]
      exact ih h

theorem lookupKey_append_other {α : Type} (l : List (String × α)) (k k2 : String) (v : α)
    (hne : k ≠ k2) : lookupKey (l ++ [(k, v)]) k2 = lookupKey l k2 := by
  induction l with
  | nil => simp [lookupKey, hne]
  | cons p rest ih =>
    rw [List.cons_append, lookupKey, lookupKey]
    by_cases hk2 : p.1 = k2
    · rw [if_pos hk2, if_pos hk2]
    · rw [if_neg hk2, if_neg hk2]
      exact ih

theorem lookupKey_setKey_self {α : Type} (l : List (String × α)) (k : String) (v : α) :
    lookupKey (setKey l k v) k = some v := by
  unfold setKey
  by_cases h : l.any (fun p => p.1 == k) = true
  · rw [if_pos h]
    rw [any_beq_eq_lookup_isSome] at h
    exact lookupKey_replace_self l k v h
  · rw [if_neg h]
    rw [any_beq_eq_lookup_isSome] at h
    exact lookupKey_append_self l k v (Option.not_isSome_iff_eq_none.1 h)

theorem lookupKey_setKey_other {α : Type} (l : List (String × α)) (k k2 : String) (v : α)
    (hne : k ≠ k2) : lookupKey (setKey l k v) k2 = lookupKey l k2 := by
  unfold setKey
  by_cases h : l.any (fun p => p.1 == k) = true
  · rw [if_pos h]
    exact lookupKey_replace_other l k k2 v hne
  · rw [if_neg h]
    exact lookupKey_append_other l k k2 v hne

theorem map_replace_of_not_mem {α : Type} (l : List (String × α)) (k : String) (v : α)
    (h : k ∉ l.map Prod.fst) :
    l.map (fun p => if p.1 = k then (k, v) else p) = l := by
  induction l with
  | nil => rfl
  | cons p rest ih =>
    simp only [List.map_cons, List.mem_cons] at h
    push_neg at h
    rw [List.map_cons, if_neg (fun hp => h.1 hp.symm), ih h.2]

theorem setKey_self {α : Type} (l : List (String × α)) (k : String) (v : α)
    (hv : lookupKey l k = some v) (hnd : (l.map Prod.fst).Nodup) : setKey l k v = l := by
  unfold setKey
  rw [any_beq_eq_lookup_isSome, hv]
  simp only [Option.isSome_some, if_true]
  induction l with
  | nil => rfl
  | cons p rest ih =>
    simp only [List.map_cons, List.nodup_cons] at hnd
    by_cases hp : p.1 = k
    · rw [lookupKey, if_pos hp] at hv
      have hpv : p = (k, v) := by
        cases p with
        | mk a b =>
          simp only at hp hv
          rw [hp]
          cases hv
          rfl
      rw [List.map_cons, if_pos hp, map_replace_of_not_mem rest k v (hp ▸ hnd.1)]
      rw [← hpv]
    · rw [lookupKey, if_neg hp] at hv
      rw [List.map_cons, if_neg hp, ih hv hnd.2]

theorem removeKey_of_not_mem {α : Type} (l : List (String × α)) (k : String)
    (h : k ∉ l.map Prod.fst) : removeKey l k = l := by
  induction l with
  | nil => rfl
  | cons p rest ih =>
    simp only [List.map_cons, List.mem_cons] at h
    push_neg at h
    rw [removeKey, List.filter_cons]
    have : (p.1 != k) = true := by
      simp only [bne_iff_ne, ne_eq]
      exact fun hp => h.1 hp.symm
    rw [if_pos this]
    have := ih (by simpa using h.2)
    rw [removeKey] at this
    rw [this]

theorem lookupKey_migrateStore (h : AccountKeyedChatHistory) (k : String) :
    lookupKey (migrateStore h).1 k
      = (lookupKey h k).map (fun u => (migrateUserLocalHistory u).1) := by
  simp only [migrateStore]
  exact lookupKey_map_snd (fun u => (migrateUserLocalHistory u).1) h k

theorem migrateStore_keys (h : AccountKeyedChatHistory) :
    (migrateStore h).1.map Prod.fst = h.map Prod.fst := by
  simp [migrateStore, List.map_map, Function.comp]

/-! ## Claim C4 -/

/-- C4: getChatHistory for an account with no entry in the persisted store —
the whole store being absent included — returns the empty history, a record
whose chat map is present and empty; the pure core is total, so no error
and no null are possible. -/
theorem C4_getHistory_defaults_empty :
    ∀ (oh : Option AccountKeyedChatHistory) (a : AuthStatus),
      lookupOpt oh (getKeyForAuthStatus a) = none →
      (getChatHistoryPure oh a).1 = { chat := some [] } := by
  intro oh a hnone
  have hmig : lookupOpt (migrateHistoryForChatModelProperty oh) (getKeyForAuthStatus a) = none := by
    cases oh with
    | none => rfl
    | some h =>
      simp only [lookupOpt] at hnone
      by_cases hn : (migrateStore h).2 = 0
      · simp [migrateHistoryForChatModelProperty, hn, lookupOpt, hnone]
      · simp only [migrateHistoryForChatModelProperty, ne_eq, hn, not_false_eq_true, if_true,
          lookupOpt]
        rw [lookupKey_migrateStore, hnone]
        rfl
  simp [getChatHistoryPure, hmig]

/-- Witness for C4 at the absent store. -/
theorem C4_getHistory_defaults_empty_witness :
    lookupOpt (none : Option AccountKeyedChatHistory) (getKeyForAuthStatus exAuthEU) = none
    ∧ (getChatHistoryPure none exAuthEU).1 = { chat := some [] } :=
  ⟨rfl, C4_getHistory_defaults_empty none exAuthEU rfl⟩

/-! ## Claim C5 -/

/-- C5 (amended): getChatHistory issues the write-back exactly when the
migration counter is non-zero, that is when some present assistant message
lacked a truthy model.  A value difference between the loaded and the
migrated store still implies a write, but the converse fails: the write can
be issued for a value-identical store.  When nothing needed migration no
write is issued and the backing value is untouched. -/
theorem C5_write_iff_migration_needed :
    ∀ (oh : Option AccountKeyedChatHistory) (a : AuthStatus),
      ((getChatHistoryPure oh a).2.2 = true ↔ migrationCount oh ≠ 0)
      ∧ (migrateHistoryForChatModelProperty oh ≠ oh → (getChatHistoryPure oh a).2.2 = true)
      ∧ (migrationCount oh = 0 →
          (getChatHistoryPure oh a).2.2 = false ∧ (getChatHistoryPure oh a).2.1 = oh) := by
  intro oh a
  have hiff : (getChatHistoryPure oh a).2.2 = true ↔ migrationCount oh ≠ 0 := by
    simp [getChatHistoryPure]
  refine ⟨hiff, fun hne => ?_, fun h0 => ?_⟩
  · refine hiff.2 (fun h0 => hne ?_)
    cases oh with
    | none => rfl
    | some h =>
      simp only [migrationCount] at h0
      simp [migrateHistoryForChatModelProperty, h0]
  · have hfalse : (getChatHistoryPure oh a).2.2 = false := by
      rcases Bool.eq_false_or_eq_true (getChatHistoryPure oh a).2.2 with ht | hf
      · exact absurd h0 (hiff.1 ht)
      · exact hf
    refine ⟨hfalse, ?_⟩
    simp [getChatHistoryPure, h0]

/-- Witness for C5 at the absent store, where no write is issued. -/
theorem C5_write_iff_migration_needed_witness :
    migrationCount (none : Option AccountKeyedChatHistory) = 0
    ∧ (getChatHistoryPure none exAuthEU).2.2 = false
    ∧ (getChatHistoryPure none exAuthEU).2.1 = none :=
  ⟨rfl, (C5_write_iff_migration_needed none exAuthEU).2.2 rfl⟩

/-- A transcript whose legacy chatModel and assistant message model are both
the empty string: the message is falsy, so it is rewritten, but to the very
value it already held. -/
def exTranscriptNoValueChange : SerializedChatTranscript :=
  { id := "c1", chatTitle := none, chatModel := some "",
    interactions := [{ humanMessage := exHuman,
                       assistantMessage := some { speaker := "assistant", text := some "hi",
                                                  model := some "" } }] }

/-- A store for which migration rebuilds a value identical to the input. -/
def exStoreNoValueChange : AccountKeyedChatHistory :=
  [("e-u", { chat := some [("c1", some exTranscriptNoValueChange)] })]

/-- Counterexample to C5 as stated: on this store the migrated result is
value-identical to the loaded input, yet getChatHistory issues the write,
because the counter is 1 and the reference comparison sees a fresh object. -/
theorem C5_counterexample_write_despite_equal :
    migrateHistoryForChatModelProperty (some exStoreNoValueChange) = some exStoreNoValueChange
    ∧ (getChatHistoryPure (some exStoreNoValueChange) exAuthEU).2.2 = true :=
  ⟨by decide, by decide⟩

/-! ## Shape lemmas for the storage operations -/

theorem migrate_eq_self_of_count_zero (oh : Option AccountKeyedChatHistory)
    (h0 : migrationCount oh = 0) : migrateHistoryForChatModelProperty oh = oh := by
  cases oh with
  | none => rfl
  | some h =>
    simp only [migrationCount] at h0
    simp [migrateHistoryForChatModelProperty, h0]

theorem getChatHistoryPure_count_zero (oh : Option AccountKeyedChatHistory) (a : AuthStatus)
    (h0 : migrationCount oh = 0) :
    getChatHistoryPure oh a
      = ((lookupOpt oh (getKeyForAuthStatus a)).getD { chat := some [] }, oh, false) := by
  simp [getChatHistoryPure, h0, migrate_eq_self_of_count_zero oh h0]

theorem getChatHistoryPure_count_ne (h : AccountKeyedChatHistory) (a : AuthStatus)
    (hn : (migrateStore h).2 ≠ 0) :
    getChatHistoryPure (some h) a
      = ((lookupKey (migrateStore h).1 (getKeyForAuthStatus a)).getD { chat := some [] },
         some (migrateStore h).1, true) := by
  simp [getChatHistoryPure, migrationCount, hn, migrateHistoryForChatModelProperty, lookupOpt]

theorem migrateChat_keys (c : ChatHistory) :
    (migrateChat c).1.map Prod.fst = c.map Prod.fst := by
  simp [migrateChat, List.map_map, Function.comp]

theorem map_fst_removeKey {α : Type} (l : List (String × α)) (X : String) :
    (removeKey l X).map Prod.fst = (l.map Prod.fst).filter (fun s => s != X) := by
  simp only [removeKey, List.filter_map]
  rfl

/-! ## Claim C7 -/

/-- The chat identifiers stored for one account key. -/
def accountChatIDs (oh : Option AccountKeyedChatHistory) (k : String) : List String :=
  match lookupOpt oh k with
  | none => []
  | some u => (u.chat.getD []).map Prod.fst

/-- C7 (amended): deleteChat leaves exactly the previous chat identifiers
minus the deleted one — so an account with chats X and Y keeps exactly Y
after deleting X, and deleting a non-present identifier leaves the
identifier set unchanged.  The stored account entry itself is unchanged by
a non-present delete only when the store needed no migration (and the entry
exists, with unique account keys as JavaScript objects guarantee);
otherwise the internal read rewrites the entry to its migrated form. -/
theorem C7_deleteChat_removes_exactly :
    ∀ (oh : Option AccountKeyedChatHistory) (a : AuthStatus) (X : String),
      (accountChatIDs (deleteChatHistoryPure oh a X) (getKeyForAuthStatus a)
          = (accountChatIDs oh (getKeyForAuthStatus a)).filter (fun c => c != X))
      ∧ (∀ (full : AccountKeyedChatHistory) (u : PersistedUserLocalHistory),
          oh = some full → migrationCount oh = 0 →
          (full.map Prod.fst).Nodup →
          lookupKey full (getKeyForAuthStatus a) = some u →
          X ∉ (u.chat.getD []).map Prod.fst →
          deleteChatHistoryPure oh a X = oh) := by
  intro oh a X
  constructor
  · cases oh with
    | none =>
      simp [deleteChatHistoryPure, getChatHistoryPure_count_zero none a rfl, accountChatIDs,
        lookupOpt, setChatHistoryPure, removeKey, lookupKey]
    | some h =>
      by_cases hn : (migrateStore h).2 = 0
      · rw [deleteChatHistoryPure, getChatHistoryPure_count_zero (some h) a hn]
        cases hlk : lookupKey h (getKeyForAuthStatus a) with
        | none =>
          simp [accountChatIDs, lookupOpt, hlk, setChatHistoryPure, removeKey,
            lookupKey_setKey_self]
        | some u =>
          cases hc : u.chat with
          | none =>
            simp [accountChatIDs, lookupOpt, hlk, hc]
          | some c =>
            simp [accountChatIDs, lookupOpt, hlk, hc, setChatHistoryPure,
              lookupKey_setKey_self, map_fst_removeKey]
      · rw [deleteChatHistoryPure, getChatHistoryPure_count_ne h a hn]
        cases hlk : lookupKey h (getKeyForAuthStatus a) with
        | none =>
          simp [accountChatIDs, lookupOpt, hlk, lookupKey_migrateStore, setChatHistoryPure,
            removeKey, lookupKey_setKey_self]
        | some u =>
          cases hc : u.chat with
          | none =>
            simp [accountChatIDs, lookupOpt, hlk, hc, lookupKey_migrateStore,
              migrateUserLocalHistory, setChatHistoryPure, removeKey, lookupKey_setKey_self]
          | some c =>
            simp [accountChatIDs, lookupOpt, hlk, hc, lookupKey_migrateStore,
              migrateUserLocalHistory, setChatHistoryPure, lookupKey_setKey_self,
              map_fst_removeKey, migrateChat_keys]
  · rintro full u rfl h0 hnd hlk hX
    rw [deleteChatHistoryPure, getChatHistoryPure_count_zero (some full) a h0]
    simp only [lookupOpt, hlk, Option.getD_some]
    cases hc : u.chat with
    | none => rfl
    | some c =>
      simp only [Option.getD_some]
      rw [hc] at hX
      simp only [Option.getD_some] at hX
      rw [removeKey_of_not_mem c X hX]
      have hu : ({ chat := some c } : PersistedUserLocalHistory) = u := by
        cases u
        cases hc
        rfl
      rw [hu, setChatHistoryPure, setKey_self full (getKeyForAuthStatus a) u hlk hnd]

/-- A transcript with no interactions (already migrated trivially). -/
def exTranscriptX : SerializedChatTranscript :=
  { id := "x", chatTitle := none, chatModel := none, interactions := [] }

/-- A second empty transcript. -/
def exTranscriptY : SerializedChatTranscript :=
  { id := "y", chatTitle := none, chatModel := none, interactions := [] }

/-- An account record holding chats x and y. -/
def exUserXY : PersistedUserLocalHistory :=
  { chat := some [("x", some exTranscriptX), ("y", some exTranscriptY)] }

/-- A store holding the account e-u with chats x and y; nothing needs
migration. -/
def exStoreXY : AccountKeyedChatHistory := [("e-u", exUserXY)]

/-- The account identity whose key is ep-u1 (spec example key). -/
def exAuthEpU1 : AuthStatus := { endpoint := "ep", username := "u1" }

/-- Witness for C7: deleting x from the account with chats x and y leaves
exactly y, and deleting the absent z from the already-migrated store is a
strict no-op. -/
theorem C7_deleteChat_removes_exactly_witness :
    accountChatIDs (deleteChatHistoryPure (some exStoreXY) exAuthEU "x")
        (getKeyForAuthStatus exAuthEU)
      = (accountChatIDs (some exStoreXY) (getKeyForAuthStatus exAuthEU)).filter
          (fun c => c != "x")
    ∧ accountChatIDs (some exStoreXY) (getKeyForAuthStatus exAuthEU) = ["x", "y"]
    ∧ migrationCount (some exStoreXY) = 0
    ∧ deleteChatHistoryPure (some exStoreXY) exAuthEU "z" = some exStoreXY :=
  ⟨(C7_deleteChat_removes_exactly (some exStoreXY) exAuthEU "x").1,
   by decide, by decide,
   (C7_deleteChat_removes_exactly (some exStoreXY) exAuthEU "z").2 exStoreXY exUserXY rfl
     (by decide) (by decide) (by decide) (by decide)⟩

/-- Counterexample to C7 as stated: on a store that still needs migration,
deleting a chat identifier that is not present rewrites the stored account
entry (to its migrated form), so the delete is not a no-op. -/
theorem C7_counterexample_nonpresent_delete_mutates :
    migrationCount (some exStoreGpt4) = 1
    ∧ lookupOpt (deleteChatHistoryPure (some exStoreGpt4) exAuthEpU1 "z") "ep-u1"
        ≠ lookupOpt (some exStoreGpt4) "ep-u1" :=
  ⟨by decide, by decide⟩

/-! ## Claim C8 -/

/-- C8 (amended): with distinct account keys, setHistory and
removeAllHistory for account A never change the stored entry of account B;
deleteChat for A leaves B's entry unchanged provided no message in the
store needs migration — otherwise the migration write-back performed by the
internal read may rewrite B's entry as well. -/
theorem C8_cross_account_isolation :
    ∀ (oh : Option AccountKeyedChatHistory) (A B : AuthStatus)
      (hist : PersistedUserLocalHistory) (X : String),
      getKeyForAuthStatus A ≠ getKeyForAuthStatus B →
      (lookupOpt (setChatHistoryPure oh A hist) (getKeyForAuthStatus B)
          = lookupOpt oh (getKeyForAuthStatus B))
      ∧ (lookupOpt (removeChatHistoryPure oh A) (getKeyForAuthStatus B)
          = lookupOpt oh (getKeyForAuthStatus B))
      ∧ (migrationCount oh = 0 →
          lookupOpt (deleteChatHistoryPure oh A X) (getKeyForAuthStatus B)
            = lookupOpt oh (getKeyForAuthStatus B)) := by
  intro oh A B hist X hne
  have hset : ∀ v : PersistedUserLocalHistory,
      lookupOpt (setChatHistoryPure oh A v) (getKeyForAuthStatus B)
        = lookupOpt oh (getKeyForAuthStatus B) := by
    intro v
    cases oh with
    | none => simp [setChatHistoryPure, lookupOpt, lookupKey, hne]
    | some full =>
      simp [setChatHistoryPure, lookupOpt,
        lookupKey_setKey_other full (getKeyForAuthStatus A) (getKeyForAuthStatus B) v hne]
  refine ⟨hset hist, hset _, fun h0 => ?_⟩
  rw [deleteChatHistoryPure, getChatHistoryPure_count_zero oh A h0]
  cases hlk : lookupOpt oh (getKeyForAuthStatus A) with
  | none => simpa [hlk] using hset _
  | some u =>
    cases hc : u.chat with
    | none => simp [hlk, hc]
    | some c => simpa [hlk, hc] using hset _

/-- Witness for C8 with two distinct account keys over an already-migrated
store. -/
theorem C8_cross_account_isolation_witness :
    getKeyForAuthStatus exAuthEU ≠ getKeyForAuthStatus exAuthEpU1
    ∧ migrationCount (some exStoreXY) = 0
    ∧ lookupOpt (setChatHistoryPure (some exStoreXY) exAuthEU exUserXY)
        (getKeyForAuthStatus exAuthEpU1) = lookupOpt (some exStoreXY) (getKeyForAuthStatus exAuthEpU1)
    ∧ lookupOpt (removeChatHistoryPure (some exStoreXY) exAuthEU)
        (getKeyForAuthStatus exAuthEpU1) = lookupOpt (some exStoreXY) (getKeyForAuthStatus exAuthEpU1)
    ∧ lookupOpt (deleteChatHistoryPure (some exStoreXY) exAuthEU "x")
        (getKeyForAuthStatus exAuthEpU1) = lookupOpt (some exStoreXY) (getKeyForAuthStatus exAuthEpU1) :=
  ⟨by decide, by decide,
   (C8_cross_account_isolation (some exStoreXY) exAuthEU exAuthEpU1 exUserXY "x" (by decide)).1,
   (C8_cross_account_isolation (some exStoreXY) exAuthEU exAuthEpU1 exUserXY "x" (by decide)).2.1,
   (C8_cross_account_isolation (some exStoreXY) exAuthEU exAuthEpU1 exUserXY "x" (by decide)).2.2
     (by decide)⟩

/-- The account identity whose key is a-a. -/
def exAuthAA : AuthStatus := { endpoint := "a", username := "a" }

/-- A store with two accounts where the second still needs migration. -/
def exStoreAB : AccountKeyedChatHistory :=
  [("a-a", { chat := some [] }),
   ("b-b", { chat := some [("c1", some exTranscriptGpt4)] })]

/-- Counterexample to C8 as stated: deleteChat on account a-a rewrites the
stored entry of account b-b, because the read-triggered migration
write-back rebuilds the whole store. -/
theorem C8_counterexample_deleteChat_touches_other :
    getKeyForAuthStatus exAuthAA = "a-a"
    ∧ lookupOpt (deleteChatHistoryPure (some exStoreAB) exAuthAA "x") "b-b"
        ≠ lookupOpt (some exStoreAB) "b-b" :=
  ⟨by decide, by decide⟩

/-! ## Claim C6 -/

/-- C6 (amended): a backend read failure during getChatHistory propagates
to the caller as an error — the empty-history default applies only to a
missing key, not to a throwing read; setChatHistory never surfaces an
error, and in particular a backend write failure leaves the state unchanged
and returns normally. -/
theorem C6_read_errors_propagate_write_errors_swallowed :
    (∀ (s : LocalStorageState) (a : AuthStatus) (m : MementoModel),
        s.backing = some m → m.readFails = true →
        getChatHistoryE s a = .error .backendFailure)
    ∧ (∀ (s : LocalStorageState) (a : AuthStatus) (hist : PersistedUserLocalHistory),
        ∃ s2, setChatHistoryE s a hist = .ok ((), s2))
    ∧ (∀ (s : LocalStorageState) (a : AuthStatus) (hist : PersistedUserLocalHistory)
        (m : MementoModel), s.backing = some m → m.writeFails = true →
        setChatHistoryE s a hist = .ok ((), s)) := by
  refine ⟨fun s a m hs hr => ?_, fun s a hist => ?_, fun s a hist m hs hw => ?_⟩
  · simp [getChatHistoryE, storageGet, hs, readHistory, hr]
  · cases hs : s.backing with
    | none => exact ⟨s, by simp [setChatHistoryE, storageGet, hs]⟩
    | some m =>
      cases hr : m.readFails with
      | true => exact ⟨s, by simp [setChatHistoryE, storageGet, hs, readHistory, hr]⟩
      | false =>
        cases hw : m.writeFails with
        | true => exact ⟨s, by simp [setChatHistoryE, storageGet, hs, readHistory, hr,
            writeHistory, hw]⟩
        | false =>
          refine ⟨{ backing := some { m with
            history := setChatHistoryPure m.history a hist } }, ?_⟩
          simp [setChatHistoryE, storageGet, hs, readHistory, hr, writeHistory, hw]
  · cases hr : m.readFails with
    | true => simp [setChatHistoryE, storageGet, hs, readHistory, hr]
    | false => simp [setChatHistoryE, storageGet, hs, readHistory, hr, writeHistory, hw]

/-- Witness for C6 at a concrete failing-read backend and a failing-write
backend. -/
theorem C6_read_errors_propagate_write_errors_swallowed_witness :
    ({ backing := some { history := none, readFails := true, writeFails := false } }
        : LocalStorageState).backing
      = some { history := none, readFails := true, writeFails := false }
    ∧ ({ history := none, readFails := true, writeFails := false } : MementoModel).readFails = true
    ∧ getChatHistoryE
        { backing := some { history := none, readFails := true, writeFails := false } } exAuthEU
        = .error .backendFailure
    ∧ setChatHistoryE
        { backing := some { history := none, readFails := false, writeFails := true } } exAuthEU
        { chat := some [] }
        = .ok ((), { backing := some { history := none, readFails := false, writeFails := true } }) :=
  ⟨rfl, rfl,
   C6_read_errors_propagate_write_errors_swallowed.1
     { backing := some { history := none, readFails := true, writeFails := false } } exAuthEU
     { history := none, readFails := true, writeFails := false } rfl rfl,
   C6_read_errors_propagate_write_errors_swallowed.2.2
     { backing := some { history := none, readFails := false, writeFails := true } } exAuthEU
     { chat := some [] } { history := none, readFails := false, writeFails := true } rfl rfl⟩

/-- Counterexample to C6 as stated: with a backend whose read throws, the
caller of getChatHistory receives the error, not the safe default empty
history. -/
theorem C6_counterexample_read_error_not_empty :
    getChatHistoryE { backing := some { history := none, readFails := true, writeFails := false } }
      exAuthEU = .error .backendFailure :=
  rfl

/-! ## Claim C9 -/

/-- C9 (amended): before setStorage has configured a backend, getChatHistory
and deleteChatHistory do fail with the NotInitialized error, but
setChatHistory and removeChatHistory catch it inside their try/catch and
return normally as silent no-ops, contrary to the claim that every
storage-backed operation fails. -/
theorem C9_uninitialized_operations :
    ∀ (a : AuthStatus) (hist : PersistedUserLocalHistory) (cid : String)
      (s : LocalStorageState), s.backing = none →
      getChatHistoryE s a = .error .notInitialized
      ∧ deleteChatHistoryE s a cid = .error .notInitialized
      ∧ setChatHistoryE s a hist = .ok ((), s)
      ∧ removeChatHistoryE s a = .ok ((), s) := by
  intro a hist cid s hs
  refine ⟨?_, ?_, ?_, ?_⟩
  · simp [getChatHistoryE, storageGet, hs]
  · simp [deleteChatHistoryE, getChatHistoryE, storageGet, hs]
  · simp [setChatHistoryE, storageGet, hs]
  · simp [removeChatHistoryE, setChatHistoryE, storageGet, hs]

/-- Witness for C9 at the fresh uninitialized state. -/
theorem C9_uninitialized_operations_witness :
    ({ backing := none } : LocalStorageState).backing = none
    ∧ getChatHistoryE { backing := none } exAuthEU = .error .notInitialized
    ∧ deleteChatHistoryE { backing := none } exAuthEU "c1" = .error .notInitialized
    ∧ setChatHistoryE { backing := none } exAuthEU { chat := some [] }
        = .ok ((), { backing := none })
    ∧ removeChatHistoryE { backing := none } exAuthEU = .ok ((), { backing := none }) :=
  ⟨rfl,
   (C9_uninitialized_operations exAuthEU { chat := some [] } "c1" { backing := none } rfl).1,
   (C9_uninitialized_operations exAuthEU { chat := some [] } "c1" { backing := none } rfl).2.1,
   (C9_uninitialized_operations exAuthEU { chat := some [] } "c1" { backing := none } rfl).2.2.1,
   (C9_uninitialized_operations exAuthEU { chat := some [] } "c1" { backing := none } rfl).2.2.2⟩

/-- Counterexample to C9 as stated: setChatHistory invoked before
initialization does not fail with NotInitialized — its catch-all swallows
the error and the call returns normally, leaving the state unchanged. -/
theorem C9_counterexample_setHistory_no_failure :
    setChatHistoryE { backing := none } exAuthEU { chat := some [] }
      = .ok ((), { backing := none }) :=
  rfl

/-! ## Claim C10 -/

/-- C10: setStorage may be called again without failing; it silently
replaces the configured backend with the async-converted new one, and
subsequent operations read the new backend's data. -/
theorem C10_setStorage_replaces_backend :
    ∀ (s : LocalStorageState) (m1 m2 : MementoModel) (a : AuthStatus),
      setStorage (setStorage s m1) m2 = { backing := some (convertToAsyncStore m2) }
      ∧ getChatHistoryE (setStorage (setStorage s m1) m2) a
          = getChatHistoryE { backing := some (convertToAsyncStore m2) } a
      ∧ (m2.readFails = false →
          ∃ s2, getChatHistoryE (setStorage (setStorage s m1) m2) a
            = .ok ((getChatHistoryPure m2.history a).1, s2)) := by
  intro s m1 m2 a
  refine ⟨rfl, rfl, fun hr => ?_⟩
  refine ⟨{ backing := some (if (getChatHistoryPure m2.history a).2.2 then
      (match writeHistory m2 (getChatHistoryPure m2.history a).2.1 with
       | .error _ => m2
       | .ok m3 => m3) else m2) }, ?_⟩
  simp [getChatHistoryE, storageGet, setStorage, convertToAsyncStore, readHistory, hr]

/-- A backend holding the x and y chats. -/
def exMem1 : MementoModel := { history := some exStoreXY, readFails := false, writeFails := false }

/-- A backend holding no history. -/
def exMem2 : MementoModel := { history := none, readFails := false, writeFails := false }

/-- Witness for C10: after the second setStorage the state holds the second
backend and getChatHistory reads that backend's (empty) data. -/
theorem C10_setStorage_replaces_backend_witness :
    exMem2.readFails = false
    ∧ setStorage (setStorage { backing := none } exMem1) exMem2
        = { backing := some (convertToAsyncStore exMem2) }
    ∧ ∃ s2, getChatHistoryE (setStorage (setStorage { backing := none } exMem1) exMem2) exAuthEU
        = .ok ((getChatHistoryPure exMem2.history exAuthEU).1, s2) :=
  ⟨rfl,
   (C10_setStorage_replaces_backend { backing := none } exMem1 exMem2 exAuthEU).1,
   (C10_setStorage_replaces_backend { backing := none } exMem1 exMem2 exAuthEU).2.2 rfl⟩
